import Mathlib

/-
Verification development for the x402 image uploader service
(backend/test-server.js plus the SQL table setup file).

The server logic is shallowly embedded as pure Lean functions.  External
collaborators (the x402 payment facilitator, the object storage, the
database) are modelled as explicit oracle parameters describing the
outcome of each external call, and the calls the handler actually issues
are logged in an explicit trace, so that statements of the form "no
storage or database write occurs" become statements about the trace.
Machine time (Date.now in JS) is passed in as a natural number of
milliseconds.
-/

namespace X402

/-- JS truthiness of an optional environment string: undefined (none) and
the empty string are falsy, every other string is truthy. -/
def jsTruthy : Option String → Bool
  | none => false
  | some s => !(s == "")

/-- Value of the JS expression v || null for an optional string v, as used
for the x-user-address header in the image record construction. -/
def jsOrNull : Option String → Option String
  | none => none
  | some s => if s == "" then none else some s

/-- Process environment as read by test-server.js: each variable is either
absent or a string (PORT is kept as a number for simplicity; the code only
defaults it). -/
structure Env where
  FACILITATOR_URL : Option String
  ADDRESS : Option String
  NETWORK : Option String
  SUPABASE_URL : Option String
  SUPABASE_KEY : Option String
  STORAGE_BUCKET : Option String
  PORT : Option Nat
deriving Repr, DecidableEq

/-- Network identifier: the code reads process.env.NETWORK || "base-sepolia",
so an absent or empty variable falls back to the default. -/
def envNetwork (env : Env) : String :=
  match env.NETWORK with
  | none => "base-sepolia"
  | some s => if s == "" then "base-sepolia" else s

/-- Configuration held by a successfully started server. -/
structure ServerConfig where
  payTo : String
  network : String
  facilitatorUrl : String
  port : Nat
  storageBucket : Option String
deriving Repr, DecidableEq

/-- Startup of test-server.js: the environment validation block checks
FACILITATOR_URL and ADDRESS; if either is JS-falsy the process prints an
error and calls process.exit(1), so app.listen is never reached.  A normal
start is modelled as Except.ok with the derived configuration, the abort as
Except.error with the exit code. -/
def startup (env : Env) : Except Nat ServerConfig :=
  if jsTruthy env.FACILITATOR_URL && jsTruthy env.ADDRESS then
    .ok { payTo := env.ADDRESS.getD ""
          network := envNetwork env
          facilitatorUrl := env.FACILITATOR_URL.getD ""
          port := env.PORT.getD 3001
          storageBucket := env.STORAGE_BUCKET }
  else
    .error 1

/-- Payment requirement entry served in the 402 challenge, with the fields
exercised by the repository (price, network, payTo, description). -/
structure PaymentRequirement where
  price : String
  network : String
  payTo : String
  description : String
deriving Repr, DecidableEq

/-- Requirement entry for POST /upload as configured in the
paymentMiddleware call: price $0.0001, the configured network and payee,
and the configured description. -/
def uploadPaymentRequirement (cfg : ServerConfig) : PaymentRequirement :=
  { price := "$0.0001"
    network := cfg.network
    payTo := cfg.payTo
    description := "Upload image to storage" }

/-- In-memory uploaded file as produced by multer memory storage:
original client file name, declared MIME type, size in bytes, content. -/
structure UploadedFile where
  originalname : String
  mimetype : String
  size : Nat
  buffer : List Nat
deriving Repr, DecidableEq

/-- Request to POST /upload: the single multipart file field (absent if no
file was sent), the optional x-user-address header (some "" models a
present but empty header value), and whether the request carries a payment
credential that the external facilitator accepts. -/
structure UploadRequest where
  file : Option UploadedFile
  xUserAddress : Option String
  paymentValid : Bool
deriving Repr, DecidableEq

/-- Size ceiling passed to multer in test-server.js: limits.fileSize is the
literal 5 * 1024 * 1024 (the adjacent comment and the error message say
10MB, but the enforced constant is 5 MiB). -/
def fileSizeLimit : Nat := 5 * 1024 * 1024

/-- Errors produced by the multer stage and routed to the Express error
middleware: a multer.MulterError carrying a code, or a plain JS Error
carrying a message. -/
inductive MiddlewareError where
  | multerError (code : String)
  | jsError (message : String)
deriving Repr, DecidableEq

/-- Multer stage for a present file: the fileFilter rejects any file whose
declared MIME type does not start with "image/" by passing
new Error("Only image files are allowed!"), and the limits.fileSize option
aborts any file whose size exceeds the ceiling with a MulterError of code
LIMIT_FILE_SIZE.  The filter sees the file metadata before the content is
streamed, so it fires first.  Returns none when the file is accepted. -/
def multerCheck (file : UploadedFile) : Option MiddlewareError :=
  if !("image/".data.isPrefixOf file.mimetype.data) then
    some (.jsError "Only image files are allowed!")
  else if fileSizeLimit < file.size then
    some (.multerError "LIMIT_FILE_SIZE")
  else
    none

/-- Image record row as built by the upload handler and inserted into the
images table.  The uploaded_at instant (new Date().toISOString() in the
code) is modelled as the millisecond clock value of the request. -/
structure ImageRecord where
  user_address : Option String
  path : String
  mime : String
  uploaded_at : Nat
  public_url : String
  file_size : Nat
  original_name : String
deriving Repr, DecidableEq

/-- Outcome oracle for the object-storage client on this request: whether
the upload call succeeds, and the public URL the bucket resolves for a
given path (getPublicUrl always returns a URL). -/
structure StorageBackend where
  uploadOk : Bool
  publicUrlOf : String → String

/-- Outcome oracle for the database insert on this request: some id means
the insert succeeds and returns a row with that generated id, none means
the insert reports an error. -/
structure DbBackend where
  insertedId : Option String
deriving Repr, DecidableEq

/-- Storage write call as issued by the handler: target bucket, path,
bytes and content type. -/
structure StorageWrite where
  bucket : Option String
  path : String
  bytes : List Nat
  contentType : String
deriving Repr, DecidableEq

/-- Trace of the external write calls issued while serving one request:
the storage upload calls and the database insert calls (each insert call
is logged with the row passed to it, whether or not the database reports
success). -/
structure Trace where
  storageWrites : List StorageWrite
  dbInserts : List ImageRecord
deriving Repr, DecidableEq

/-- Trace of a request that issued no external write call. -/
def Trace.empty : Trace := { storageWrites := [], dbInserts := [] }

/-- Decimal digits of a natural number, least significant digit last,
matching the JS number-to-string conversion used by the template literal
in the file name generation. -/
def natToChars (n : Nat) : List Char :=
  if _h : n < 10 then [Nat.digitChar n]
  else natToChars (n / 10) ++ [Nat.digitChar (n % 10)]
termination_by n
decreasing_by exact Nat.div_lt_self (by omega) (by omega)

/-- Decimal string of a natural number. -/
def natToString (n : Nat) : String := ⟨natToChars n⟩

/-- File name generated by the upload handler: the template literal
combining Date.now() and the original client file name with a dash. -/
def fileNameOf (now : Nat) (originalname : String) : String :=
  natToString now ++ "-" ++ originalname

/-- Storage path generated by the upload handler: uploads/ followed by the
generated file name. -/
def filePathOf (now : Nat) (originalname : String) : String :=
  "uploads/" ++ fileNameOf now originalname

/-- Response of the POST /upload route, one constructor per distinct
response shape in the code: the 402 payment challenge, a 400 client error,
a 500 server error, the 201 partial-success body without a record id
(database insert failed after a successful storage write), and the full
201 body with the record id. -/
inductive UploadResponse where
  | paymentRequired (accepts : List PaymentRequirement)
  | clientError (error : String)
  | serverError (error : String)
  | createdNoId (message url path : String)
  | created (message : String) (id : String) (url path : String) (uploadedAt : Nat)
deriving Repr, DecidableEq

/-- HTTP status code of each upload response shape. -/
def UploadResponse.status : UploadResponse → Nat
  | .paymentRequired _ => 402
  | .clientError _ => 400
  | .serverError _ => 500
  | .createdNoId _ _ _ => 201
  | .created _ _ _ _ _ => 201

/-- Record id carried by an upload response body, if any. -/
def UploadResponse.idField : UploadResponse → Option String
  | .created _ i _ _ _ => some i
  | _ => none

/-- Express error-handling middleware of test-server.js: a MulterError with
code LIMIT_FILE_SIZE becomes 400 "File too large. Maximum size is 10MB.",
a plain error with the fileFilter message becomes 400 "Only image files
are allowed", anything else becomes a generic 500. -/
def errorMiddleware : MiddlewareError → UploadResponse
  | .multerError code =>
    if code == "LIMIT_FILE_SIZE" then
      .clientError "File too large. Maximum size is 10MB."
    else
      .serverError "Internal server error"
  | .jsError msg =>
    if msg == "Only image files are allowed!" then
      .clientError "Only image files are allowed"
    else
      .serverError "Internal server error"

/-- Body of the POST /upload handler (after the payment gate and multer
accepted the request): reject a missing file with 400; otherwise generate
the storage path, issue the storage upload, and on storage failure answer
500; on storage success resolve the public URL, build the image record and
issue the database insert; on insert failure answer 201 with url and path
but no id; on insert success answer 201 with the returned id. -/
def uploadHandlerBody (cfg : ServerConfig) (storage : StorageBackend)
    (db : DbBackend) (req : UploadRequest) (now : Nat) :
    UploadResponse × Trace :=
  match req.file with
  | none => (.clientError "No image file provided", Trace.empty)
  | some file =>
    let filePath := filePathOf now file.originalname
    let write : StorageWrite :=
      { bucket := cfg.storageBucket
        path := filePath
        bytes := file.buffer
        contentType := file.mimetype }
    if storage.uploadOk then
      let publicUrl := storage.publicUrlOf filePath
      let imageRecord : ImageRecord :=
        { user_address := jsOrNull req.xUserAddress
          path := filePath
          mime := file.mimetype
          uploaded_at := now
          public_url := publicUrl
          file_size := file.size
          original_name := file.originalname }
      match db.insertedId with
      | none =>
        (.createdNoId "Image uploaded successfully (metadata save failed)"
           publicUrl filePath,
         { storageWrites := [write], dbInserts := [imageRecord] })
      | some id =>
        (.created "Image uploaded successfully" id publicUrl filePath now,
         { storageWrites := [write], dbInserts := [imageRecord] })
    else
      (.serverError "Failed to upload image to storage",
       { storageWrites := [write], dbInserts := [] })

/-- Full processing of a POST /upload request.  The route first passes the
x402 payment middleware, which is external code configured in
test-server.js; its challenge behaviour is modelled from the spec: a
request without a valid payment credential is answered 402 with the
configured requirement entry and the route handler never runs.  A paid
request then passes the multer stage and, if accepted, the handler body. -/
def postUpload (cfg : ServerConfig) (storage : StorageBackend)
    (db : DbBackend) (req : UploadRequest) (now : Nat) :
    UploadResponse × Trace :=
  if req.paymentValid then
    match req.file with
    | none => uploadHandlerBody cfg storage db req now
    | some file =>
      match multerCheck file with
      | some e => (errorMiddleware e, Trace.empty)
      | none => uploadHandlerBody cfg storage db req now
  else
    (.paymentRequired [uploadPaymentRequirement cfg], Trace.empty)

/-- Body of the GET /health response. -/
structure HealthBody where
  status : String
  message : String
  timestamp : Nat
deriving Repr, DecidableEq

/-- Handler of GET /health in test-server.js: an unconditional JSON body
with status ok, a fixed message, and the current time. -/
def healthHandler (now : Nat) : HealthBody :=
  { status := "ok"
    message := "x402 Image Uploader Service is running"
    timestamp := now }

/-- State of the images table visible to GET /images: the rows in their
insertion order, and whether the select call succeeds on this request. -/
structure ImagesTable where
  rows : List ImageRecord
  selectOk : Bool

/-- Modelled from the spec: the database select issued by GET /images with
order uploaded_at descending is external database code; per the storage
adapter contract it returns all rows of the table sorted by uploaded_at
descending (a stable sort of the insertion sequence), or an error. -/
def selectImagesDesc (t : ImagesTable) : Option (List ImageRecord) :=
  if t.selectOk then
    some (t.rows.mergeSort (fun a b => b.uploaded_at ≤ a.uploaded_at))
  else
    none

/-- Response of the whole HTTP surface of test-server.js. -/
inductive ApiResponse where
  | health (body : HealthBody)
  | images (records : List ImageRecord)
  | imagesError (error : String)
  | upload (r : UploadResponse)
  | notFound (error : String)
deriving Repr

/-- HTTP status code of each response of the surface. -/
def ApiResponse.status : ApiResponse → Nat
  | .health _ => 200
  | .images _ => 200
  | .imagesError _ => 500
  | .upload r => r.status
  | .notFound _ => 404

/-- Handler of GET /images: on database error 500 with a fixed message,
else 200 with the ordered rows. -/
def getImagesHandler (t : ImagesTable) : ApiResponse :=
  match selectImagesDesc t with
  | none => .imagesError "Failed to fetch images"
  | some rows => .images rows

/-- Request to the whole HTTP surface. -/
inductive ApiRequest where
  | getHealth
  | getImages
  | postUploadReq (r : UploadRequest)
  | other (method path : String)

/-- Dispatch of one request by the running server: GET /health and
GET /images and the fallback 404 route issue no storage or database write;
POST /upload is processed by the gated upload route. -/
def handleRequest (cfg : ServerConfig) (storage : StorageBackend)
    (db : DbBackend) (t : ImagesTable) (req : ApiRequest) (now : Nat) :
    ApiResponse × Trace :=
  match req with
  | .getHealth => (.health (healthHandler now), Trace.empty)
  | .getImages => (getImagesHandler t, Trace.empty)
  | .postUploadReq r =>
    let out := postUpload cfg storage db r now
    (.upload out.1, out.2)
  | .other _ _ => (.notFound "Endpoint not found", Trace.empty)

/-! Concrete fixtures used to evaluate the model on closed inputs. -/

/-- Sample environment with every required variable set. -/
def envW : Env :=
  { FACILITATOR_URL := some "https://facilitator.example"
    ADDRESS := some "0x1111"
    NETWORK := none
    SUPABASE_URL := some "https://supabase.example"
    SUPABASE_KEY := some "service-key"
    STORAGE_BUCKET := some "images"
    PORT := none }

/-- Sample environment with the facilitator URL missing. -/
def envMissingW : Env :=
  { FACILITATOR_URL := none
    ADDRESS := some "0x1111"
    NETWORK := none
    SUPABASE_URL := none
    SUPABASE_KEY := none
    STORAGE_BUCKET := none
    PORT := none }

/-- Configuration produced by a successful startup on envW. -/
def cfgW : ServerConfig :=
  { payTo := "0x1111"
    network := "base-sepolia"
    facilitatorUrl := "https://facilitator.example"
    port := 3001
    storageBucket := some "images" }

/-- Alternative configuration A, for configuration-independence checks. -/
def cfgAltA : ServerConfig :=
  { payTo := "0xaaaa"
    network := "base-sepolia"
    facilitatorUrl := "https://fac-a.example"
    port := 3001
    storageBucket := some "bucket-a" }

/-- Alternative configuration B, for configuration-independence checks. -/
def cfgAltB : ServerConfig :=
  { payTo := "0xbbbb"
    network := "base"
    facilitatorUrl := "https://fac-b.example"
    port := 4000
    storageBucket := some "bucket-b" }

/-- Storage oracle whose upload succeeds. -/
def storageOkW : StorageBackend :=
  { uploadOk := true
    publicUrlOf := fun p => "https://cdn.example/" ++ p }

/-- Database oracle whose insert succeeds with a fixed generated id. -/
def dbOkW : DbBackend := { insertedId := some "rec-1" }

/-- Database oracle whose insert fails. -/
def dbFailW : DbBackend := { insertedId := none }

/-- Small valid image file. -/
def fileW : UploadedFile :=
  { originalname := "a.png", mimetype := "image/png", size := 3, buffer := [1, 2, 3] }

/-- File with a non-image declared MIME type. -/
def fileBadW : UploadedFile :=
  { originalname := "a.txt", mimetype := "text/plain", size := 3, buffer := [1, 2, 3] }

/-- Image file one byte over the multer ceiling. -/
def fileBigW : UploadedFile :=
  { originalname := "big.png", mimetype := "image/png", size := 5 * 1024 * 1024 + 1
    buffer := [] }

/-- Paid request carrying the small valid image. -/
def reqW : UploadRequest :=
  { file := some fileW, xUserAddress := some "user-1", paymentValid := true }

/-- Request carrying the small valid image but no valid payment credential. -/
def reqUnpaidW : UploadRequest :=
  { file := some fileW, xUserAddress := none, paymentValid := false }

/-- Paid request carrying the non-image file. -/
def reqBadW : UploadRequest :=
  { file := some fileBadW, xUserAddress := none, paymentValid := true }

/-- Paid request carrying the oversized image. -/
def reqBigW : UploadRequest :=
  { file := some fileBigW, xUserAddress := none, paymentValid := true }

/-- Paid request whose x-user-address header is present but empty. -/
def reqEmptyAddrW : UploadRequest :=
  { file := some fileW, xUserAddress := some "", paymentValid := true }

/-- First of two distinct paid requests sharing the original file name. -/
def reqDupA : UploadRequest :=
  { file := some { originalname := "a.png", mimetype := "image/png", size := 3
                   buffer := [1, 2, 3] }
    xUserAddress := some "alice", paymentValid := true }

/-- Second of two distinct paid requests sharing the original file name. -/
def reqDupB : UploadRequest :=
  { file := some { originalname := "a.png", mimetype := "image/png", size := 4
                   buffer := [9, 9, 9, 9] }
    xUserAddress := some "bob", paymentValid := true }

/-- Images table with three rows inserted in ascending timestamp order. -/
def tableW : ImagesTable :=
  { rows :=
      [ { user_address := none, path := "uploads/1-a.png", mime := "image/png"
          uploaded_at := 1, public_url := "https://cdn.example/uploads/1-a.png"
          file_size := 3, original_name := "a.png" }
      , { user_address := some "alice", path := "uploads/2-b.png", mime := "image/png"
          uploaded_at := 2, public_url := "https://cdn.example/uploads/2-b.png"
          file_size := 4, original_name := "b.png" }
      , { user_address := none, path := "uploads/3-c.png", mime := "image/jpeg"
          uploaded_at := 3, public_url := "https://cdn.example/uploads/3-c.png"
          file_size := 5, original_name := "c.png" } ]
    selectOk := true }

/-- Storage write issued for the small valid image at time 1000. -/
def writeA : StorageWrite :=
  { bucket := some "images", path := filePathOf 1000 "a.png"
    bytes := [1, 2, 3], contentType := "image/png" }

/-- Storage write issued for the small valid image at time 1001. -/
def writeB : StorageWrite :=
  { bucket := some "images", path := filePathOf 1001 "a.png"
    bytes := [1, 2, 3], contentType := "image/png" }

/-! Helper lemmas about the decimal conversion and the generated paths. -/

theorem digitChar_inj_lt : ∀ a < 10, ∀ b < 10, Nat.digitChar a = Nat.digitChar b → a = b := by
  decide

theorem digitChar_ne_dash : ∀ k < 10, Nat.digitChar k ≠ '-' := by decide

theorem natToChars_lt (n : Nat) (h : n < 10) : natToChars n = [Nat.digitChar n] := by
  rw [natToChars]
  exact dif_pos h

theorem natToChars_ge (n : Nat) (h : ¬ n < 10) :
    natToChars n = natToChars (n / 10) ++ [Nat.digitChar (n % 10)] := by
  rw [natToChars]
  exact dif_neg h

theorem natToChars_ne_nil (n : Nat) : natToChars n ≠ [] := by
  by_cases h : n < 10
  · simp [natToChars_lt n h]
  · simp [natToChars_ge n h]

theorem natToChars_ne_dash (n : Nat) : ∀ c ∈ natToChars n, c ≠ '-' := by
  induction n using Nat.strong_induction_on with
  | _ n ih =>
    by_cases h : n < 10
    · rw [natToChars_lt n h]
      intro c hc
      rw [List.mem_singleton] at hc
      subst hc
      exact digitChar_ne_dash n h
    · rw [natToChars_ge n h]
      intro c hc
      rcases List.mem_append.mp hc with hc | hc
      · exact ih (n / 10) (Nat.div_lt_self (by omega) (by omega)) c hc
      · rw [List.mem_singleton] at hc
        subst hc
        exact digitChar_ne_dash _ (Nat.mod_lt _ (by omega))

theorem natToChars_inj : ∀ a b : Nat, natToChars a = natToChars b → a = b := by
  intro a
  induction a using Nat.strong_induction_on with
  | _ a ih =>
    intro b h
    by_cases ha : a < 10 <;> by_cases hb : b < 10
    · rw [natToChars_lt a ha, natToChars_lt b hb] at h
      exact digitChar_inj_lt a ha b hb (List.singleton_inj.mp h)
    · rw [natToChars_lt a ha, natToChars_ge b hb] at h
      exfalso
      apply natToChars_ne_nil (b / 10)
      have hlen := congrArg List.length h
      simp only [List.length_singleton, List.length_append] at hlen
      exact List.length_eq_zero.mp (by omega)
    · rw [natToChars_ge a ha, natToChars_lt b hb] at h
      exfalso
      apply natToChars_ne_nil (a / 10)
      have hlen := congrArg List.length h
      simp only [List.length_singleton, List.length_append] at hlen
      exact List.length_eq_zero.mp (by omega)
    · rw [natToChars_ge a ha, natToChars_ge b hb] at h
      have h2 := List.append_inj' h rfl
      have hdiv := ih (a / 10) (Nat.div_lt_self (by omega) (by omega)) (b / 10) h2.1
      have hmod := digitChar_inj_lt (a % 10) (Nat.mod_lt _ (by omega)) (b % 10)
        (Nat.mod_lt _ (by omega)) (List.singleton_inj.mp h2.2)
      omega

theorem sep_append_inj : ∀ (xs₁ : List Char) (xs₂ : List Char) (ys₁ ys₂ : List Char),
    (∀ c ∈ xs₁, c ≠ '-') → (∀ c ∈ xs₂, c ≠ '-') →
    xs₁ ++ '-' :: ys₁ = xs₂ ++ '-' :: ys₂ → xs₁ = xs₂ ∧ ys₁ = ys₂ := by
  intro xs₁
  induction xs₁ with
  | nil =>
    intro xs₂ ys₁ ys₂ _ h2 h
    cases xs₂ with
    | nil => simpa using h
    | cons c t =>
      simp at h
      exact absurd h.1.symm (h2 c (by simp))
  | cons c₁ t₁ ihx =>
    intro xs₂ ys₁ ys₂ h1 h2 h
    cases xs₂ with
    | nil =>
      simp at h
      exact absurd h.1 (h1 c₁ (by simp))
    | cons c₂ t₂ =>
      simp at h
      obtain ⟨hc, ht⟩ := h
      have := ihx t₂ ys₁ ys₂ (fun c hc => h1 c (by simp [hc]))
        (fun c hc => h2 c (by simp [hc])) ht
      exact ⟨by simp [hc, this.1], this.2⟩

theorem natToString_data (n : Nat) : (natToString n).data = natToChars n := rfl

theorem filePathOf_inj {t₁ t₂ : Nat} {n₁ n₂ : String}
    (h : filePathOf t₁ n₁ = filePathOf t₂ n₂) : t₁ = t₂ ∧ n₁ = n₂ := by
  have hd := congrArg String.data h
  simp only [filePathOf, fileNameOf, String.data_append, natToString_data,
    List.append_assoc] at hd
  have hd2 := List.append_cancel_left hd
  have hd3 : natToChars t₁ ++ '-' :: n₁.data = natToChars t₂ ++ '-' :: n₂.data := by
    simpa using hd2
  have := sep_append_inj (natToChars t₁) (natToChars t₂) n₁.data n₂.data
    (natToChars_ne_dash t₁) (natToChars_ne_dash t₂) hd3
  exact ⟨natToChars_inj _ _ this.1, String.ext this.2⟩

theorem envNetwork_ne_empty (env : Env) : envNetwork env ≠ "" := by
  unfold envNetwork
  match env.NETWORK with
  | none => decide
  | some s =>
    by_cases hs : s == ""
    · simp [hs]
    · simp only [hs, if_false]
      simpa using hs

theorem jsTruthy_getD_ne_empty {x : Option String} (h : jsTruthy x = true) :
    x.getD "" ≠ "" := by
  match x with
  | none => simp [jsTruthy] at h
  | some s =>
    simp only [jsTruthy] at h
    simpa [Option.getD] using h

theorem mem_body_storageWrites_path (cfg : ServerConfig) (storage : StorageBackend)
    (db : DbBackend) (req : UploadRequest) (now : Nat) (w : StorageWrite)
    (hw : w ∈ (uploadHandlerBody cfg storage db req now).2.storageWrites) :
    ∃ f, req.file = some f ∧ w.path = filePathOf now f.originalname := by
  unfold uploadHandlerBody at hw
  split at hw
  · simp [Trace.empty] at hw
  · next file heq =>
    dsimp only at hw
    split at hw
    · split at hw
      · simp at hw
        exact ⟨file, heq, by rw [hw]⟩
      · simp at hw
        exact ⟨file, heq, by rw [hw]⟩
    · simp at hw
      exact ⟨file, heq, by rw [hw]⟩

theorem mem_storageWrites_path (cfg : ServerConfig) (storage : StorageBackend)
    (db : DbBackend) (req : UploadRequest) (now : Nat) (w : StorageWrite)
    (hw : w ∈ (postUpload cfg storage db req now).2.storageWrites) :
    ∃ f, req.file = some f ∧ w.path = filePathOf now f.originalname := by
  unfold postUpload at hw
  split at hw
  · split at hw
    · exact mem_body_storageWrites_path _ _ _ _ _ _ hw
    · split at hw
      · simp [Trace.empty] at hw
      · exact mem_body_storageWrites_path _ _ _ _ _ _ hw
  · simp [Trace.empty] at hw

/-! Claim theorems. -/

/-- C1: for every POST /upload request in which the object-storage write
succeeds but the subsequent database metadata insert fails, the handler
responds with HTTP 201 and a body containing the public url and the
storage path but no record id; the request is not turned into an error
response. -/
theorem C1_storage_ok_db_fail_still_201 (cfg : ServerConfig) (storage : StorageBackend)
    (db : DbBackend) (req : UploadRequest) (now : Nat) (file : UploadedFile)
    (hpay : req.paymentValid = true) (hfile : req.file = some file)
    (hmime : "image/".data.isPrefixOf file.mimetype.data = true)
    (hsize : file.size ≤ fileSizeLimit)
    (hstore : storage.uploadOk = true) (hdb : db.insertedId = none) :
    (postUpload cfg storage db req now).1 =
      .createdNoId "Image uploaded successfully (metadata save failed)"
        (storage.publicUrlOf (filePathOf now file.originalname))
        (filePathOf now file.originalname) ∧
    (postUpload cfg storage db req now).1.status = 201 ∧
    (postUpload cfg storage db req now).1.idField = none := by
  have hm : multerCheck file = none := by
    simp [multerCheck, hmime, Nat.not_lt.mpr hsize]
  refine ⟨?_, ?_, ?_⟩ <;>
    simp [postUpload, hpay, hfile, hm, uploadHandlerBody, hstore, hdb,
      UploadResponse.status, UploadResponse.idField]

/-- C1 witness: evaluation at a concrete paid image upload with a failing
database insert. -/
theorem C1_witness :
    (postUpload cfgW storageOkW dbFailW reqW 1000).1 =
      .createdNoId "Image uploaded successfully (metadata save failed)"
        (storageOkW.publicUrlOf (filePathOf 1000 fileW.originalname))
        (filePathOf 1000 fileW.originalname) ∧
    (postUpload cfgW storageOkW dbFailW reqW 1000).1.status = 201 ∧
    (postUpload cfgW storageOkW dbFailW reqW 1000).1.idField = none :=
  C1_storage_ok_db_fail_still_201 cfgW storageOkW dbFailW reqW 1000 fileW
    rfl rfl (by decide) (by decide) rfl rfl

/-- C2: a request to POST /upload without a valid payment credential is
answered 402 with at least one payment-requirement entry whose network and
payTo fields are non-empty, and no storage or database write is performed.
The payment middleware itself is external x402-express code, modelled from
the spec; the non-emptiness of the advertised fields follows from the
startup validation and the network default in test-server.js. -/
theorem C2_unpaid_402 (env : Env) (cfg : ServerConfig) (storage : StorageBackend)
    (db : DbBackend) (req : UploadRequest) (now : Nat)
    (hstart : startup env = .ok cfg) (hpay : req.paymentValid = false) :
    (postUpload cfg storage db req now).1.status = 402 ∧
    (∃ accepts, (postUpload cfg storage db req now).1 = .paymentRequired accepts ∧
      ∃ pr ∈ accepts, pr.network ≠ "" ∧ pr.payTo ≠ "") ∧
    (postUpload cfg storage db req now).2 = Trace.empty := by
  have hcfg : cfg.payTo ≠ "" ∧ cfg.network ≠ "" := by
    unfold startup at hstart
    by_cases hc : (jsTruthy env.FACILITATOR_URL && jsTruthy env.ADDRESS) = true
    · rw [if_pos hc] at hstart
      have hcfg' := Except.ok.inj hstart
      rw [← hcfg']
      have hc2 : jsTruthy env.ADDRESS = true := by
        rw [Bool.and_eq_true] at hc
        exact hc.2
      exact ⟨jsTruthy_getD_ne_empty hc2, envNetwork_ne_empty env⟩
    · rw [if_neg hc] at hstart
      simp at hstart
  refine ⟨by simp [postUpload, hpay, UploadResponse.status],
    ⟨[uploadPaymentRequirement cfg], by simp [postUpload, hpay],
      uploadPaymentRequirement cfg, by simp, hcfg.2, hcfg.1⟩,
    by simp [postUpload, hpay]⟩

/-- C2 witness: evaluation at a concrete unpaid request under the sample
environment. -/
theorem C2_witness :
    (postUpload cfgW storageOkW dbOkW reqUnpaidW 1000).1.status = 402 ∧
    (∃ accepts, (postUpload cfgW storageOkW dbOkW reqUnpaidW 1000).1 =
        .paymentRequired accepts ∧
      ∃ pr ∈ accepts, pr.network ≠ "" ∧ pr.payTo ≠ "") ∧
    (postUpload cfgW storageOkW dbOkW reqUnpaidW 1000).2 = Trace.empty :=
  C2_unpaid_402 envW cfgW storageOkW dbOkW reqUnpaidW 1000 rfl rfl

/-- C3: a paid POST /upload request whose file declares a MIME type without
the image/ prefix is rejected by the multer fileFilter and answered 400 by
the error middleware, and no storage or database write is performed. -/
theorem C3_non_image_400 (cfg : ServerConfig) (storage : StorageBackend)
    (db : DbBackend) (req : UploadRequest) (now : Nat) (file : UploadedFile)
    (hpay : req.paymentValid = true) (hfile : req.file = some file)
    (hmime : "image/".data.isPrefixOf file.mimetype.data = false) :
    (postUpload cfg storage db req now).1 = .clientError "Only image files are allowed" ∧
    (postUpload cfg storage db req now).1.status = 400 ∧
    (postUpload cfg storage db req now).2 = Trace.empty := by
  have hm : multerCheck file = some (.jsError "Only image files are allowed!") := by
    simp [multerCheck, hmime]
  refine ⟨?_, ?_, ?_⟩ <;>
    simp [postUpload, hpay, hfile, hm, errorMiddleware, UploadResponse.status]

/-- C3 witness: evaluation at a concrete paid request carrying a text file. -/
theorem C3_witness :
    (postUpload cfgW storageOkW dbOkW reqBadW 1000).1 =
      .clientError "Only image files are allowed" ∧
    (postUpload cfgW storageOkW dbOkW reqBadW 1000).1.status = 400 ∧
    (postUpload cfgW storageOkW dbOkW reqBadW 1000).2 = Trace.empty :=
  C3_non_image_400 cfgW storageOkW dbOkW reqBadW 1000 fileBadW rfl rfl (by decide)

/-- C4: a paid POST /upload request whose file exceeds the multer byte
ceiling is rejected at the multer stage, before the handler body runs: the
response is a 400 client error and no object-storage call (and no database
call) is made. -/
theorem C4_oversize_400 (cfg : ServerConfig) (storage : StorageBackend)
    (db : DbBackend) (req : UploadRequest) (now : Nat) (file : UploadedFile)
    (hpay : req.paymentValid = true) (hfile : req.file = some file)
    (hsize : fileSizeLimit < file.size) :
    (∃ msg, (postUpload cfg storage db req now).1 = .clientError msg) ∧
    (postUpload cfg storage db req now).1.status = 400 ∧
    (postUpload cfg storage db req now).2 = Trace.empty := by
  by_cases hmime : "image/".data.isPrefixOf file.mimetype.data
  · have hm : multerCheck file = some (.multerError "LIMIT_FILE_SIZE") := by
      simp [multerCheck, hmime, hsize]
    exact ⟨⟨"File too large. Maximum size is 10MB.",
        by simp [postUpload, hpay, hfile, hm, errorMiddleware]⟩,
      by simp [postUpload, hpay, hfile, hm, errorMiddleware, UploadResponse.status],
      by simp [postUpload, hpay, hfile, hm]⟩
  · have hm : multerCheck file = some (.jsError "Only image files are allowed!") := by
      simp [multerCheck, hmime]
    exact ⟨⟨"Only image files are allowed",
        by simp [postUpload, hpay, hfile, hm, errorMiddleware]⟩,
      by simp [postUpload, hpay, hfile, hm, errorMiddleware, UploadResponse.status],
      by simp [postUpload, hpay, hfile, hm]⟩

/-- C4 witness: evaluation at a concrete paid request carrying an image one
byte over the ceiling. -/
theorem C4_witness :
    (∃ msg, (postUpload cfgW storageOkW dbOkW reqBigW 1000).1 = .clientError msg) ∧
    (postUpload cfgW storageOkW dbOkW reqBigW 1000).1.status = 400 ∧
    (postUpload cfgW storageOkW dbOkW reqBigW 1000).2 = Trace.empty :=
  C4_oversize_400 cfgW storageOkW dbOkW reqBigW 1000 fileBigW rfl rfl (by decide)

/-- C5: when the select succeeds, GET /images answers 200 with all image
records of the table, sorted by uploaded_at in descending (here strictly
descending, thanks to distinct timestamps) order, for any insertion order
of the rows. -/
theorem C5_images_sorted_desc (t : ImagesTable) (hok : t.selectOk = true)
    (hdist : t.rows.Pairwise (fun a b => a.uploaded_at ≠ b.uploaded_at)) :
    ∃ l, getImagesHandler t = .images l ∧ (getImagesHandler t).status = 200 ∧
      l.Perm t.rows ∧ l.Pairwise (fun a b => b.uploaded_at < a.uploaded_at) := by
  have hperm := List.mergeSort_perm t.rows
    (fun a b : ImageRecord => b.uploaded_at ≤ a.uploaded_at)
  have hsorted := @List.sorted_mergeSort ImageRecord
    (fun a b : ImageRecord => b.uploaded_at ≤ a.uploaded_at)
    (fun a b c h1 h2 => by
      simp only [decide_eq_true_eq] at *
      omega)
    (fun a b => by
      simp only [Bool.or_eq_true, decide_eq_true_eq]
      exact Nat.le_total b.uploaded_at a.uploaded_at)
    t.rows
  have hdist2 := (hperm.pairwise_iff fun h => h ∘ Eq.symm).mpr hdist
  refine ⟨t.rows.mergeSort (fun a b => b.uploaded_at ≤ a.uploaded_at),
    by simp [getImagesHandler, selectImagesDesc, hok],
    by simp [getImagesHandler, selectImagesDesc, hok, ApiResponse.status],
    hperm, ?_⟩
  refine (hsorted.and hdist2).imp ?_
  intro a b hab
  have h1 := hab.1
  have h2 := hab.2
  simp only [decide_eq_true_eq] at h1
  exact Nat.lt_of_le_of_ne h1 fun e => h2 e.symm

/-- C5 witness: evaluation at a concrete table whose rows were inserted in
ascending timestamp order. -/
theorem C5_witness :
    ∃ l, getImagesHandler tableW = .images l ∧ (getImagesHandler tableW).status = 200 ∧
      l.Perm tableW.rows ∧ l.Pairwise (fun a b => b.uploaded_at < a.uploaded_at) :=
  C5_images_sorted_desc tableW rfl (by decide)

/-- C6 counterexample: two distinct successful uploads (different content,
different user) served in the same millisecond with the same original file
name are written to the same storage path, so the generated path is not
unique per upload. -/
theorem C6_counterexample :
    reqDupA ≠ reqDupB ∧
    (postUpload cfgW storageOkW dbOkW reqDupA 1000).1.status = 201 ∧
    (postUpload cfgW storageOkW dbOkW reqDupB 1000).1.status = 201 ∧
    (postUpload cfgW storageOkW dbOkW reqDupA 1000).2.storageWrites.map
        StorageWrite.path =
      (postUpload cfgW storageOkW dbOkW reqDupB 1000).2.storageWrites.map
        StorageWrite.path :=
  ⟨by decide, rfl, rfl, rfl⟩

/-- C6 amended: the storage paths of two successful uploads are distinct
whenever the two uploads differ in upload time (Date.now millisecond) or in
original file name; uploads sharing both can collide. -/
theorem C6_paths_distinct (cfg₁ cfg₂ : ServerConfig) (s₁ s₂ : StorageBackend)
    (d₁ d₂ : DbBackend) (req₁ req₂ : UploadRequest) (now₁ now₂ : Nat)
    (f₁ f₂ : UploadedFile) (w₁ w₂ : StorageWrite)
    (hf₁ : req₁.file = some f₁) (hf₂ : req₂.file = some f₂)
    (hne : (now₁, f₁.originalname) ≠ (now₂, f₂.originalname))
    (hw₁ : w₁ ∈ (postUpload cfg₁ s₁ d₁ req₁ now₁).2.storageWrites)
    (hw₂ : w₂ ∈ (postUpload cfg₂ s₂ d₂ req₂ now₂).2.storageWrites) :
    w₁.path ≠ w₂.path := by
  obtain ⟨g₁, hg₁, hp₁⟩ := mem_storageWrites_path cfg₁ s₁ d₁ req₁ now₁ w₁ hw₁
  obtain ⟨g₂, hg₂, hp₂⟩ := mem_storageWrites_path cfg₂ s₂ d₂ req₂ now₂ w₂ hw₂
  rw [hf₁] at hg₁
  rw [hf₂] at hg₂
  have e₁ := Option.some.inj hg₁
  have e₂ := Option.some.inj hg₂
  intro he
  rw [hp₁, hp₂, ← e₁, ← e₂] at he
  obtain ⟨ht, hn⟩ := filePathOf_inj he
  apply hne
  rw [ht, hn]

/-- C6 amended witness: the writes of two concrete uploads one millisecond
apart have distinct paths. -/
theorem C6_witness : writeA.path ≠ writeB.path :=
  C6_paths_distinct cfgW cfgW storageOkW storageOkW dbOkW dbOkW reqW reqW
    1000 1001 fileW fileW writeA writeB rfl rfl (by decide)
    (by rw [show (postUpload cfgW storageOkW dbOkW reqW 1000).2.storageWrites
          = [writeA] from rfl]
        exact List.mem_singleton.mpr rfl)
    (by rw [show (postUpload cfgW storageOkW dbOkW reqW 1001).2.storageWrites
          = [writeB] from rfl]
        exact List.mem_singleton.mpr rfl)

/-- C7 counterexample: the upload size ceiling is not taken from the
configuration: under two configurations differing in every field, the same
oversized upload is rejected identically, and the enforced ceiling is the
constant 5 * 1024 * 1024 hard-coded in the multer options. -/
theorem C7_counterexample :
    cfgAltA ≠ cfgAltB ∧
    fileSizeLimit = 5 * 1024 * 1024 ∧
    (postUpload cfgAltA storageOkW dbOkW reqBigW 1000).1 =
      .clientError "File too large. Maximum size is 10MB." ∧
    (postUpload cfgAltB storageOkW dbOkW reqBigW 1000).1 =
      .clientError "File too large. Maximum size is 10MB." :=
  ⟨by decide, rfl, rfl, rfl⟩

/-- C7 amended: the maximum upload size is a single fixed ceiling, the
constant 5 * 1024 * 1024 hard-coded in the multer options (not read from
the service configuration): an oversized paid upload is answered 400 with
no storage call, and the response is identical under every configuration,
backend and clock. -/
theorem C7_fixed_ceiling (cfg cfg' : ServerConfig) (storage storage' : StorageBackend)
    (db db' : DbBackend) (req : UploadRequest) (now now' : Nat) (file : UploadedFile)
    (hpay : req.paymentValid = true) (hfile : req.file = some file)
    (hsize : fileSizeLimit < file.size) :
    (postUpload cfg storage db req now).1 = (postUpload cfg' storage' db' req now').1 ∧
    (postUpload cfg storage db req now).1.status = 400 ∧
    (postUpload cfg storage db req now).2 = Trace.empty ∧
    fileSizeLimit = 5 * 1024 * 1024 := by
  by_cases hmime : "image/".data.isPrefixOf file.mimetype.data
  · have hm : multerCheck file = some (.multerError "LIMIT_FILE_SIZE") := by
      simp [multerCheck, hmime, hsize]
    refine ⟨?_, ?_, ?_, rfl⟩ <;>
      simp [postUpload, hpay, hfile, hm, errorMiddleware, UploadResponse.status]
  · have hm : multerCheck file = some (.jsError "Only image files are allowed!") := by
      simp [multerCheck, hmime]
    refine ⟨?_, ?_, ?_, rfl⟩ <;>
      simp [postUpload, hpay, hfile, hm, errorMiddleware, UploadResponse.status]

/-- C7 amended witness: evaluation of the oversized upload under the two
sample configurations. -/
theorem C7_witness :
    (postUpload cfgAltA storageOkW dbOkW reqBigW 1000).1 =
      (postUpload cfgAltB storageOkW dbFailW reqBigW 2000).1 ∧
    (postUpload cfgAltA storageOkW dbOkW reqBigW 1000).1.status = 400 ∧
    (postUpload cfgAltA storageOkW dbOkW reqBigW 1000).2 = Trace.empty ∧
    fileSizeLimit = 5 * 1024 * 1024 :=
  C7_fixed_ceiling cfgAltA cfgAltB storageOkW storageOkW dbOkW dbFailW reqBigW
    1000 2000 fileBigW rfl rfl (by decide)

/-- C8: GET /health always answers 200 with a body whose status field is
the sentinel ok, for every configuration, storage oracle, database oracle,
table state and clock, and issues no storage or database write. -/
theorem C8_health_always_ok (cfg : ServerConfig) (storage : StorageBackend)
    (db : DbBackend) (t : ImagesTable) (now : Nat) :
    (handleRequest cfg storage db t .getHealth now).1.status = 200 ∧
    (∃ b, (handleRequest cfg storage db t .getHealth now).1 = .health b ∧
      b.status = "ok") ∧
    (handleRequest cfg storage db t .getHealth now).2 = Trace.empty :=
  ⟨rfl, ⟨healthHandler now, rfl, rfl⟩, rfl⟩

/-- C9: if the facilitator endpoint URL or the payee address is absent from
the environment, startup aborts with process.exit(1) before the server
begins listening (no configuration is ever produced). -/
theorem C9_missing_env_exits (env : Env)
    (h : env.FACILITATOR_URL = none ∨ env.ADDRESS = none) :
    startup env = .error 1 := by
  rcases h with h | h <;> simp [startup, jsTruthy, h]

/-- C9 witness: evaluation at the sample environment missing the
facilitator URL. -/
theorem C9_witness : startup envMissingW = .error 1 :=
  C9_missing_env_exits envMissingW (Or.inl rfl)

/-- C10 counterexample: a successful upload whose x-user-address header is
present but empty stores a null user_address (the handler applies JS
truthiness, header || null), not the header value, so the record field does
not equal the header whenever the header is present. -/
theorem C10_counterexample :
    reqEmptyAddrW.xUserAddress = some "" ∧
    (postUpload cfgW storageOkW dbOkW reqEmptyAddrW 1000).1.status = 201 ∧
    (postUpload cfgW storageOkW dbOkW reqEmptyAddrW 1000).2.dbInserts.map
      ImageRecord.user_address = [none] :=
  ⟨rfl, rfl, rfl⟩

/-- C10 amended: for every successful upload that inserts an image record,
the record fields are determined by the request: user_address equals the
x-user-address header when it is present and non-empty and is null when it
is absent or empty (JS falsy); mime equals the declared MIME type;
file_size equals the byte size; original_name equals the client file name;
and path equals the storage path passed to the object-storage write. -/
theorem C10_record_fields (cfg : ServerConfig) (storage : StorageBackend)
    (db : DbBackend) (req : UploadRequest) (now : Nat) (file : UploadedFile)
    (id : String)
    (hpay : req.paymentValid = true) (hfile : req.file = some file)
    (hmime : "image/".data.isPrefixOf file.mimetype.data = true)
    (hsize : file.size ≤ fileSizeLimit)
    (hstore : storage.uploadOk = true) (hdb : db.insertedId = some id) :
    ∃ rec, (postUpload cfg storage db req now).2.dbInserts = [rec] ∧
      rec.user_address = jsOrNull req.xUserAddress ∧
      rec.mime = file.mimetype ∧
      rec.file_size = file.size ∧
      rec.original_name = file.originalname ∧
      (postUpload cfg storage db req now).2.storageWrites.map StorageWrite.path =
        [rec.path] ∧
      (postUpload cfg storage db req now).1 =
        .created "Image uploaded successfully" id (storage.publicUrlOf rec.path)
          rec.path now := by
  have hm : multerCheck file = none := by
    simp [multerCheck, hmime, Nat.not_lt.mpr hsize]
  refine ⟨⟨jsOrNull req.xUserAddress, filePathOf now file.originalname, file.mimetype,
    now, storage.publicUrlOf (filePathOf now file.originalname), file.size,
    file.originalname⟩, ?_, rfl, rfl, rfl, rfl, ?_, ?_⟩ <;>
    simp [postUpload, hpay, hfile, hm, uploadHandlerBody, hstore, hdb]

/-- C10 amended witness: evaluation at a concrete paid upload with a
non-empty user header and a succeeding database insert. -/
theorem C10_witness :
    ∃ rec, (postUpload cfgW storageOkW dbOkW reqW 1000).2.dbInserts = [rec] ∧
      rec.user_address = jsOrNull reqW.xUserAddress ∧
      rec.mime = fileW.mimetype ∧
      rec.file_size = fileW.size ∧
      rec.original_name = fileW.originalname ∧
      (postUpload cfgW storageOkW dbOkW reqW 1000).2.storageWrites.map
        StorageWrite.path = [rec.path] ∧
      (postUpload cfgW storageOkW dbOkW reqW 1000).1 =
        .created "Image uploaded successfully" "rec-1"
          (storageOkW.publicUrlOf rec.path) rec.path 1000 :=
  C10_record_fields cfgW storageOkW dbOkW reqW 1000 fileW "rec-1"
    rfl rfl (by decide) (by decide) rfl rfl

end X402
